import Mathlib

/-!
Formal model of the RAG query engine in `src/rag/query_engine.py` (class
`RAGQueryEngine`) together with the pieces of `src/core/config.py` and
`src/core/database.py` it depends on.

Modelling conventions:
* Python `float` values are modelled as exact rationals (`ℚ`); the claims are
  about the arithmetic formulas, not about IEEE rounding.
* Python `int` is modelled as `ℤ` where the sign matters (`max_sources`,
  `n_results`), `ℕ` where the source only ever uses non-negative values.
* A passage dictionary is modelled by the structure `Passage`.  The source
  reads every field through `dict.get` with a fixed default
  (`doc.get("content", "")`, `doc.get("metadata", {})`,
  `doc.get("relevance_score", 0)`), so a missing key is observationally the
  default value; the model therefore uses total fields whose default is the
  `dict.get` default.
* Calls to the external collaborators (`db_manager.query_documents`, the
  OpenAI completion call) are modelled as function parameters, since the
  claims quantify over every collaborator behaviour; a call that raises is an
  `Except.error`.
* Python string slicing `s[:n]` (with `n ≥ 0`) is `pyTakeStr`, list slicing
  `l[:m]` (any sign) is `pyTake`, `sep.join(parts)` is `pyJoin`, and the
  stable `list.sort(key=…, reverse=True)` is `sortByKey` with a negated key
  (a stable ascending insertion sort on the key; Timsort is stable, and a
  output of a stable sort is uniquely determined by the key order and the
  input order, so any stable sort is a faithful model).
-/

namespace RagEngine

/-- Python list slicing `l[:m]` for an `int` bound `m`: for `m ≥ 0` the first
`m` elements, for `m < 0` all but the last `-m` elements (clamped at zero). -/
def pyTake {α : Type} (m : ℤ) (l : List α) : List α :=
  if 0 ≤ m then l.take m.toNat else l.take (l.length - (-m).toNat)

/-- Python string slicing `s[:n]` for a non-negative bound. -/
def pyTakeStr (n : ℕ) (s : String) : String :=
  ⟨s.data.take n⟩

/-- Python `sep.join(parts)`. -/
def pyJoin (sep : String) : List String → String
  | [] => ""
  | [s] => s
  | s :: rest => s ++ sep ++ pyJoin sep rest

/-- Append an element to an accumulator unless it is already present; models
the `if s not in sources: sources.append(s)` pattern of the source. -/
def addUnique {α : Type} [DecidableEq α] (acc : List α) (x : α) : List α :=
  if x ∈ acc then acc else acc ++ [x]

/-- First-occurrence deduplication via `addUnique`; models building a list of
distinct values (the source uses `set(...)` for years, whose iteration order
is unspecified — every result below is insensitive to that order because the
events are subsequently sorted by year). -/
def dedupFirst {α : Type} [DecidableEq α] (l : List α) : List α :=
  l.foldl addUnique []

/-- Stable insertion of `x` into `l`: `x` goes in front of the first element
whose key is `≥` the key of `x`; elements with strictly smaller key stay in
front.  Combined with `sortByKey` (a right fold) this is the unique stable
ascending sort by `k`. -/
def insertLe {α β : Type} [LinearOrder β] (k : α → β) (x : α) : List α → List α
  | [] => [x]
  | y :: ys => if k x ≤ k y then x :: y :: ys else y :: insertLe k x ys

/-- Stable ascending sort by the key `k`; models Python `list.sort(key=…)`
(and, with a negated key, `list.sort(key=…, reverse=True)`, which Python also
keeps stable). -/
def sortByKey {α β : Type} [LinearOrder β] (k : α → β) (l : List α) : List α :=
  l.foldr (insertLe k) []

/-- Metadata dictionary of a passage, as read by the engine
(`metadata.get("source"/"title"/"timestamp")`); `none` models an absent key. -/
structure Metadata where
  source : Option String := none
  title : Option String := none
  timestamp : Option String := none
deriving DecidableEq

/-- Python truthiness of `metadata.get(key)`: an absent key (`None`) and the
empty string are falsy. -/
def truthy : Option String → Bool
  | none => false
  | some s => !s.isEmpty

/-- A retrieved passage dictionary.  Field defaults are the `dict.get`
defaults used by every read in the source (`content` defaults to `""`,
`metadata` to `{}`, `relevance_score` to `0`); `collection` is the tag the
retriever writes (`result["collection"] = collection_name`). -/
structure Passage where
  content : String := ""
  metadata : Metadata := {}
  relevance_score : ℚ := 0
  collection : Option String := none
deriving DecidableEq

/-- `QueryResponse` of `query_engine.py` (line 26).  `processing_time` is
wall-clock time and is not modelled (no claim is about it). -/
structure QueryResponse where
  answer : String
  sources : List Passage
  confidence : ℚ
deriving DecidableEq

/-- The configuration values the engine reads (`core/config.py`); the spec
calls this "the configured similarity threshold" (default `0.7`). -/
structure Config where
  similarity_threshold : ℚ := 7/10
deriving DecidableEq

/-- The behaviour of `db_manager.query_documents` as seen by the engine: a
function of the query text, the collection name and `n_results`;
`Except.error` models a raised exception. -/
def Fetch : Type := String → String → ℤ → Except String (List Passage)

/-- Per-collection fetch count of `_retrieve_documents` (line 143):
`max_sources // len(collections) + 2`, with Python floor division. -/
def nResults (max_sources : ℤ) (numCollections : ℕ) : ℤ :=
  Int.fdiv max_sources numCollections + 2

/-- Default collection list of `_retrieve_documents` (line 133). -/
def defaultCollections : List String :=
  ["documents", "research_papers", "news_articles", "patents", "historical_data"]

/-- The merge step of `_retrieve_documents` (lines 135–153): query each
collection in declaration order, tag each result with its collection, drop a
collection whose fetch raises (`except … continue`), and concatenate. -/
def allResults (fetch : Fetch) (queryText : String) (max_sources : ℤ)
    (collections : List String) : List Passage :=
  (collections.map (fun name =>
    match fetch queryText name (nResults max_sources collections.length) with
    | .ok results => results.map (fun r => { r with collection := some name })
    | .error _ => [])).flatten

/-- The sort step of `_retrieve_documents` (line 156):
`all_results.sort(key=lambda x: x.get("relevance_score", 0), reverse=True)` —
a stable descending sort by relevance score. -/
def mergedSorted (fetch : Fetch) (queryText : String) (max_sources : ℤ)
    (collections : List String) : List Passage :=
  sortByKey (fun p => -p.relevance_score)
    (allResults fetch queryText max_sources collections)

/-- `RAGQueryEngine._retrieve_documents` (lines 123–164): default the
collection list, merge, sort, filter by the similarity threshold, and
truncate with `filtered_results[:max_sources]`. -/
def retrieve_documents (cfg : Config) (fetch : Fetch) (queryText : String)
    (max_sources : ℤ) (collections : Option (List String)) : List Passage :=
  let cols := collections.getD defaultCollections
  let sorted := mergedSorted fetch queryText max_sources cols
  let filtered := sorted.filter (fun p => cfg.similarity_threshold ≤ p.relevance_score)
  pyTake max_sources filtered

/-- Provenance header plus content of one passage, as assembled by
`_prepare_context` (lines 261–272): `source` (default `Unknown`), an optional
` - title`, an optional ` (date)` with the timestamp cut to its 10-character
date prefix, then a newline, the content, and a trailing newline. -/
def docText (doc : Passage) : String :=
  let info0 := "Source: " ++ doc.metadata.source.getD "Unknown"
  let info1 := if truthy doc.metadata.title
    then info0 ++ " - " ++ doc.metadata.title.getD "" else info0
  let info2 := if truthy doc.metadata.timestamp
    then info1 ++ " (" ++ pyTakeStr 10 (doc.metadata.timestamp.getD "") ++ ")"
    else info1
  info2 ++ "\n" ++ doc.content ++ "\n"

/-- The accumulation loop of `_prepare_context` (lines 258–283): add each
block while it fits the running budget; once a block would overflow, add a
truncated copy (cut to the remaining space, plus an ellipsis) only when more
than 100 characters of budget remain, and stop either way. -/
def contextParts (max_length : ℕ) : ℕ → List Passage → List String
  | _, [] => []
  | current_length, doc :: rest =>
    let t := docText doc
    if max_length < current_length + t.length then
      let remaining_space := max_length - current_length
      if 100 < remaining_space then [pyTakeStr remaining_space t ++ "..."] else []
    else
      t :: contextParts max_length (current_length + t.length) rest

/-- `RAGQueryEngine._prepare_context` (lines 256–285): the accumulated blocks
joined with the delimiter line `"\n---\n"` (the source default budget is
4000). -/
def prepare_context (docs : List Passage) (max_length : ℕ) : String :=
  pyJoin "\n---\n" (contextParts max_length 0 docs)

/-- `RAGQueryEngine._calculate_confidence` (lines 287–308): `0` on an empty
list, otherwise `min((n/10)*0.3 + avgRelevance*0.5 + min(len/500,1)*0.2, 1)`
with `n` the number of passages. -/
def calculate_confidence (docs : List Passage) (answer : String) : ℚ :=
  if docs = [] then 0
  else
    let num_docs : ℚ := docs.length
    let avg_relevance := (docs.map (fun d => d.relevance_score)).sum / num_docs
    let answer_length_factor := min ((answer.length : ℚ) / 500) 1
    min (num_docs / 10 * (3 / 10) + avg_relevance * (1 / 2)
      + answer_length_factor * (1 / 5)) 1

/-- `RAGQueryEngine._generate_fallback_answer` (lines 224–254): a fixed
message when there are no passages; otherwise excerpts of the top 3 passages
(contents longer than 200 characters are cut to 500 plus an ellipsis) under a
fixed lead-in, followed by a deduplicated `Sources:` line when any source
metadata is present.  The question argument is unused, as in the source. -/
def generate_fallback_answer (question : String) (context_docs : List Passage) :
    String :=
  if context_docs = [] then
    "I don\x27t have relevant information to answer your question about semiconductor manufacturing."
  else
    let top := context_docs.take 3
    let relevant_text := top.map (fun doc =>
      if 200 < doc.content.length then pyTakeStr 500 doc.content ++ "..."
      else doc.content)
    let answer := "Based on the available information about semiconductor manufacturing:\n\n"
      ++ pyJoin "\n\n" relevant_text
    let sources := top.foldl
      (fun acc doc => addUnique acc (doc.metadata.source.getD "Unknown source")) []
    if sources = [] then answer
    else answer ++ "\n\nSources: " ++ pyJoin ", " sources

/-- The system prompt literal of `_generate_answer` (lines 178–191). -/
def systemPromptText : String :=
  "You are an expert in semiconductor manufacturing and technology with deep knowledge of:\n- Semiconductor fabrication processes and evolution over the last 30 years\n- AI applications in chip design and manufacturing\n- Historical technological milestones in the semiconductor industry\n- Current trends and future directions in semiconductor technology\n\nYour responses should be:\n- Technically accurate and detailed\n- Based on the provided context documents\n- Include historical perspective when relevant\n- Mention specific years, companies, and technologies when available\n- Acknowledge if information is limited or uncertain\n\nAlways cite the most relevant sources from the context when providing your answer."

/-- The user prompt of `_generate_answer` (lines 193–203), with the question
and the packed context substituted for the f-string placeholders. -/
def userPromptText (question context : String) : String :=
  "Based on the following context about semiconductor manufacturing and technology, please answer this question: "
    ++ question
    ++ "\n\nContext:\n"
    ++ context
    ++ "\n\nPlease provide a comprehensive answer that includes:\n1. Direct answer to the question\n2. Historical context if relevant\n3. Current state of the technology\n4. Future implications if applicable\n5. Specific examples and data points from the sources"

/-- `RAGQueryEngine._generate_answer` (lines 166–222).  The generative
backend (the OpenAI completion call, available only when the library and the
API key are configured) is a parameter: `none` models an unconfigured
backend, and an `Except.error` result models a raised backend exception; both
fall back to extractive synthesis, so no backend failure escapes. -/
def generate_answer (backend : Option (String → String → Except String String))
    (question : String) (context_docs : List Passage) : String :=
  match backend with
  | none => generate_fallback_answer question context_docs
  | some complete =>
    match complete systemPromptText
        (userPromptText question (prepare_context context_docs 4000)) with
    | .ok response => response.trim
    | .error _ => generate_fallback_answer question context_docs

/-- The no-information answer of `query` (line 90). -/
def noInfoAnswer : String :=
  "I don\x27t have enough information to answer that question about semiconductor manufacturing. Please try rephrasing your question or check if the knowledge base has been updated recently."

/-- The no-information response of `query` (lines 88–94). -/
def noInfoResponse : QueryResponse :=
  { answer := noInfoAnswer, sources := [], confidence := 0 }

/-- The response built by the `except` handler of `query` (lines 114–121). -/
def errorResponse (e : String) : QueryResponse :=
  { answer := "I encountered an error while processing your question: " ++ e,
    sources := [], confidence := 0 }

/-- The `try`/`except` structure of `RAGQueryEngine.query` (lines 59–121).
Each pipeline step is a parameter that may fail (`Except.error` models an
exception raised inside the step, e.g. on malformed passage data); any such
failure is caught at this boundary and turned into `errorResponse`.  The
empty-retrieval branch and the `include_sources` selection are as in the
source. -/
def queryBoundary (retrieveStep : Except String (List Passage))
    (generateStep : List Passage → Except String String)
    (confidenceStep : List Passage → String → Except String ℚ)
    (include_sources : Bool) : QueryResponse :=
  match retrieveStep with
  | .error e => errorResponse e
  | .ok relevant_docs =>
    if relevant_docs = [] then noInfoResponse
    else
      match generateStep relevant_docs with
      | .error e => errorResponse e
      | .ok answer =>
        match confidenceStep relevant_docs answer with
        | .error e => errorResponse e
        | .ok confidence =>
          { answer := answer,
            sources := if include_sources then relevant_docs else [],
            confidence := confidence }

/-- `RAGQueryEngine.query` (lines 59–121) with its typed pipeline steps: the
typed model of each step is total, so the `except` branch is unreachable
here; `queryBoundary` keeps the boundary behaviour for arbitrary failing
steps. -/
def query (cfg : Config) (fetch : Fetch)
    (backend : Option (String → String → Except String String))
    (question : String) (include_sources : Bool) (max_sources : ℤ)
    (collections : Option (List String)) : QueryResponse :=
  queryBoundary
    (.ok (retrieve_documents cfg fetch question max_sources collections))
    (fun docs => .ok (generate_answer backend question docs))
    (fun docs answer => .ok (calculate_confidence docs answer))
    include_sources

/-- Python `\w` for the ASCII range (the regex scan of
`get_historical_timeline` is applied to corpus text). -/
def isWordChar (c : Char) : Bool := c.isAlphanum || c = '_'

/-- ASCII decimal digit: code point between 48 (`0`) and 57 (`9`). -/
def isDigitChar (c : Char) : Bool := 48 ≤ c.toNat && c.toNat ≤ 57

/-- The year token of the regex `19[5-9]\d|20[0-2]\d` (line 326), on code
points: 49 is `1`, 57 is `9`, 53 is `5`, 50 is `2`, 48 is `0`. -/
def yearTok (c1 c2 c3 c4 : Char) : Bool :=
  (c1.toNat = 49 && c2.toNat = 57 && (53 ≤ c3.toNat && c3.toNat ≤ 57)
    && isDigitChar c4) ||
  (c1.toNat = 50 && c2.toNat = 48 && (48 ≤ c3.toNat && c3.toNat ≤ 50)
    && isDigitChar c4)

/-- Numeric value of a four-digit token (`int(year)`). -/
def yearVal (c1 c2 c3 c4 : Char) : ℕ :=
  1000 * (c1.toNat - 48) + 100 * (c2.toNat - 48) + 10 * (c3.toNat - 48)
    + (c4.toNat - 48)

/-- `\b` before the token: start of text or a preceding non-word character. -/
def boundaryBefore : Option Char → Bool
  | none => true
  | some p => !isWordChar p

/-- `\b` after the token: end of text or a following non-word character. -/
def boundaryAfter : List Char → Bool
  | [] => true
  | c :: _ => !isWordChar c

/-- `re.findall(r"\b(19[5-9]\d|20[0-2]\d)\b", content)` (line 326): scan left
to right, matching the fixed-width token at word boundaries, consuming
matches non-overlapping; `prev` is the character just before the scan
position. -/
def findYears (prev : Option Char) : List Char → List ℕ
  | c1 :: c2 :: c3 :: c4 :: rest =>
    if boundaryBefore prev && yearTok c1 c2 c3 c4 && boundaryAfter rest then
      yearVal c1 c2 c3 c4 :: findYears (some c4) rest
    else
      findYears (some c1) (c2 :: c3 :: c4 :: rest)
  | _ => []

/-- `TimelineEvent` as built at lines 329–334 (`year`, a 200-character
content preview, the source metadata, the relevance score). -/
structure TimelineEvent where
  year : ℕ
  content : String
  source : String
  relevance : ℚ
deriving DecidableEq

/-- The dictionary returned by `get_historical_timeline` (lines 339–347),
with `year_range.start` and `year_range.end` flattened into two fields. -/
structure TimelineResult where
  topic : String
  timeline : List TimelineEvent
  total_events : ℕ
  year_range_start : Option ℕ
  year_range_end : Option ℕ
deriving DecidableEq

/-- `RAGQueryEngine.get_historical_timeline` (lines 310–347): retrieve with a
synthetic query and a source cap of 20, mine year tokens from each passage
(deduplicated within the passage — the source iterates `set(years)`, whose
order is immaterial here because the events are then sorted), build one event
per surviving year, and sort ascending by year (a stable sort). -/
def get_historical_timeline (cfg : Config) (fetch : Fetch) (topic : String) :
    TimelineResult :=
  let q := "historical timeline evolution development " ++ topic
    ++ " years decades milestones"
  let docs := retrieve_documents cfg fetch q 20 none
  let events := (docs.map (fun doc =>
    (dedupFirst (findYears none doc.content.data)).map (fun y =>
      { year := y,
        content := pyTakeStr 200 doc.content ++ "...",
        source := doc.metadata.source.getD "Unknown",
        relevance := doc.relevance_score }))).flatten
  let sorted := sortByKey (fun e => e.year) events
  { topic := topic,
    timeline := sorted,
    total_events := sorted.length,
    year_range_start := sorted.head?.map (fun e => e.year),
    year_range_end := sorted.getLast?.map (fun e => e.year) }

/-! ### Generic lemmas about the stable sort, slicing and joining -/

theorem mem_insertLe {α β : Type} [LinearOrder β] (k : α → β) (x a : α)
    (l : List α) : a ∈ insertLe k x l ↔ a = x ∨ a ∈ l := by
  induction l with
  | nil => simp [insertLe]
  | cons y ys ih =>
    simp only [insertLe]
    split
    · simp [List.mem_cons]
    · simp only [List.mem_cons, ih]
      tauto

theorem pairwise_insertLe {α β : Type} [LinearOrder β] (k : α → β) (x : α)
    (l : List α) (h : l.Pairwise (fun a b => k a ≤ k b)) :
    (insertLe k x l).Pairwise (fun a b => k a ≤ k b) := by
  induction l with
  | nil => simp [insertLe]
  | cons y ys ih =>
    rcases List.pairwise_cons.1 h with ⟨hy, hys⟩
    simp only [insertLe]
    split
    case isTrue hxy =>
      refine List.pairwise_cons.2 ⟨?_, h⟩
      intro b hb
      rcases List.mem_cons.1 hb with rfl | hb
      · exact hxy
      · exact le_trans hxy (hy b hb)
    case isFalse hxy =>
      refine List.pairwise_cons.2 ⟨?_, ih hys⟩
      intro b hb
      rcases (mem_insertLe k x b ys).1 hb with rfl | hb
      · exact le_of_not_le hxy
      · exact hy b hb

theorem pairwise_sortByKey {α β : Type} [LinearOrder β] (k : α → β)
    (l : List α) : (sortByKey k l).Pairwise (fun a b => k a ≤ k b) := by
  induction l with
  | nil => simp [sortByKey]
  | cons x xs ih => exact pairwise_insertLe k x (sortByKey k xs) ih

theorem mem_sortByKey {α β : Type} [LinearOrder β] (k : α → β) (a : α)
    (l : List α) : a ∈ sortByKey k l ↔ a ∈ l := by
  induction l with
  | nil => simp [sortByKey]
  | cons x xs ih =>
    show a ∈ insertLe k x (sortByKey k xs) ↔ _
    rw [mem_insertLe, ih]
    simp [List.mem_cons]

theorem filter_insertLe {α β : Type} [LinearOrder β] (k : α → β) (x : α)
    (l : List α) (c : β) :
    (insertLe k x l).filter (fun a => decide (k a = c)) =
      if k x = c then x :: l.filter (fun a => decide (k a = c))
      else l.filter (fun a => decide (k a = c)) := by
  induction l with
  | nil =>
    simp only [insertLe]
    by_cases hxc : k x = c <;> simp [List.filter_cons, hxc]
  | cons y ys ih =>
    simp only [insertLe]
    by_cases hxy : k x ≤ k y
    · rw [if_pos hxy]
      by_cases hxc : k x = c <;> simp [List.filter_cons, hxc]
    · rw [if_neg hxy]
      have hlt : k y < k x := lt_of_not_le hxy
      by_cases hxc : k x = c
      · have hyc : ¬ k y = c := fun hc => absurd (hxc ▸ hc ▸ hlt) (lt_irrefl _)
        simp [List.filter_cons, hyc, ih, hxc]
      · by_cases hyc : k y = c <;> simp [List.filter_cons, hyc, ih, hxc]

theorem filter_sortByKey {α β : Type} [LinearOrder β] (k : α → β)
    (l : List α) (c : β) :
    (sortByKey k l).filter (fun a => decide (k a = c)) =
      l.filter (fun a => decide (k a = c)) := by
  induction l with
  | nil => simp [sortByKey]
  | cons x xs ih =>
    show (insertLe k x (sortByKey k xs)).filter _ = _
    rw [filter_insertLe, ih]
    by_cases hxc : k x = c <;> simp [List.filter_cons, hxc]

theorem pyTake_sublist {α : Type} (m : ℤ) (l : List α) :
    (pyTake m l).Sublist l := by
  unfold pyTake
  split <;> exact List.take_sublist _ _

theorem pyTake_nil {α : Type} (m : ℤ) : pyTake m ([] : List α) = [] := by
  unfold pyTake
  split <;> simp

theorem length_pyTake_of_nonneg {α : Type} (m : ℤ) (l : List α)
    (h : 0 ≤ m) : ((pyTake m l).length : ℤ) ≤ m := by
  unfold pyTake
  rw [if_pos h, List.length_take]
  omega

/-! ### C7: merge ordering and stability -/

/-- C7: for every fetch behaviour, query, maxSources and collection list, the
merged passage list of the Retriever is sorted in descending order of
`relevance_score`; the sort is stable over the concatenation in
collection-declaration order (passages of equal score keep their merge
order), and the final filtered/truncated retrieval result is sorted
descending as well. -/
theorem c7_merge_sorted_stable (cfg : Config) (fetch : Fetch)
    (queryText : String) (max_sources : ℤ) (collections : List String) :
    (mergedSorted fetch queryText max_sources collections).Pairwise
        (fun a b => b.relevance_score ≤ a.relevance_score)
      ∧ (∀ c : ℚ,
          (mergedSorted fetch queryText max_sources collections).filter
              (fun p => decide (p.relevance_score = c)) =
            (allResults fetch queryText max_sources collections).filter
              (fun p => decide (p.relevance_score = c)))
      ∧ (retrieve_documents cfg fetch queryText max_sources
            (some collections)).Pairwise
          (fun a b => b.relevance_score ≤ a.relevance_score) := by
  have hsorted :
      (mergedSorted fetch queryText max_sources collections).Pairwise
        (fun a b => b.relevance_score ≤ a.relevance_score) := by
    have h := pairwise_sortByKey (fun p : Passage => -p.relevance_score)
      (allResults fetch queryText max_sources collections)
    exact h.imp (fun hab => neg_le_neg_iff.1 hab)
  refine ⟨hsorted, ?_, ?_⟩
  · intro c
    have h := filter_sortByKey (fun p : Passage => -p.relevance_score)
      (allResults fetch queryText max_sources collections) (-c)
    have hiff : ∀ (l : List Passage),
        l.filter (fun p => decide (-p.relevance_score = -c)) =
          l.filter (fun p => decide (p.relevance_score = c)) := by
      intro l
      apply List.filter_congr
      intro p _
      simp [neg_inj]
    rw [hiff, hiff] at h
    exact h
  · have hsub :
        (retrieve_documents cfg fetch queryText max_sources
            (some collections)).Sublist
          (mergedSorted fetch queryText max_sources collections) := by
      unfold retrieve_documents
      exact (pyTake_sublist _ _).trans (List.filter_sublist _)
    exact hsorted.sublist hsub

/-- C7 witness: the stability and ordering theorem applied to a concrete
two-collection behaviour. -/
theorem c7_witness :
    (mergedSorted (fun _ _ _ => .ok [{ relevance_score := 1 }]) "q" 10
        ["documents", "patents"]).Pairwise
        (fun a b => b.relevance_score ≤ a.relevance_score)
      ∧ (∀ c : ℚ,
          (mergedSorted (fun _ _ _ => .ok [{ relevance_score := 1 }]) "q" 10
              ["documents", "patents"]).filter
              (fun p => decide (p.relevance_score = c)) =
            (allResults (fun _ _ _ => .ok [{ relevance_score := 1 }]) "q" 10
              ["documents", "patents"]).filter
              (fun p => decide (p.relevance_score = c)))
      ∧ (retrieve_documents {} (fun _ _ _ => .ok [{ relevance_score := 1 }])
            "q" 10 (some ["documents", "patents"])).Pairwise
          (fun a b => b.relevance_score ≤ a.relevance_score) :=
  c7_merge_sorted_stable {} (fun _ _ _ => .ok [{ relevance_score := 1 }])
    "q" 10 ["documents", "patents"]

/-! ### C4: threshold invariant and cardinality cap -/

/-- C4 counterexample: with `max_sources = -1` the retrieval result has
non-negative length, so "the set contains at most maxSources passages" fails
as stated for a negative `maxSources` (Python slicing `[:-1]` does not bound
the length by `-1`). -/
theorem c4_counterexample :
    ¬ (((retrieve_documents {} (fun _ _ _ => .ok []) "q" (-1)
        (some ["documents"])).length : ℤ) ≤ -1) := by
  decide

/-- C4 (amended): for every fetch behaviour, query and collection set, and
every non-negative `maxSources`, every passage of the retrieval result has
`relevance_score ≥` the configured similarity threshold, and the result
contains at most `maxSources` passages.  (As stated the claim also quantified
over negative `maxSources`, where the cardinality bound is impossible since a
list length is non-negative.) -/
theorem c4_threshold_and_cap (cfg : Config) (fetch : Fetch)
    (queryText : String) (max_sources : ℤ)
    (collections : Option (List String)) (hms : 0 ≤ max_sources) :
    (∀ p ∈ retrieve_documents cfg fetch queryText max_sources collections,
        cfg.similarity_threshold ≤ p.relevance_score)
      ∧ ((retrieve_documents cfg fetch queryText max_sources
          collections).length : ℤ) ≤ max_sources := by
  constructor
  · intro p hp
    have hmem : p ∈ (sortByKey (fun p : Passage => -p.relevance_score)
        (allResults fetch queryText max_sources
          (collections.getD defaultCollections))).filter
        (fun p => decide (cfg.similarity_threshold ≤ p.relevance_score)) := by
      have hsub := pyTake_sublist max_sources
        ((mergedSorted fetch queryText max_sources
            (collections.getD defaultCollections)).filter
          (fun p => decide (cfg.similarity_threshold ≤ p.relevance_score)))
      exact hsub.mem hp
    exact of_decide_eq_true (List.mem_filter.1 hmem).2
  · exact length_pyTake_of_nonneg max_sources _ hms

/-- C4 witness: the amended theorem at a concrete behaviour and
`maxSources = 3`. -/
theorem c4_witness :
    (∀ p ∈ retrieve_documents {} (fun _ _ _ => .ok [{ relevance_score := 1 }])
        "q" 3 (some ["documents"]),
        ({} : Config).similarity_threshold ≤ p.relevance_score)
      ∧ ((retrieve_documents {} (fun _ _ _ => .ok [{ relevance_score := 1 }])
          "q" 3 (some ["documents"])).length : ℤ) ≤ 3 :=
  c4_threshold_and_cap {} (fun _ _ _ => .ok [{ relevance_score := 1 }])
    "q" 3 (some ["documents"]) (by decide)

/-! ### C6: per-collection fetch quota -/

/-- C6 counterexample: the per-collection fetch count is
`maxSources // |collections| + 2` with Python floor division, and for
`maxSources = -15` over 5 collections it equals `-1`, so "this count is never
negative" fails as stated. -/
theorem c6_counterexample : nResults (-15) 5 < 0 := by
  decide

/-- C6 (amended): for every `maxSources` and non-empty collection list, the
per-collection fetch count passed to the Document Store Adapter equals
`maxSources` floor-divided by the number of collections, plus 2, and it is
non-negative whenever `maxSources` is non-negative (the source can pass a
negative count when `maxSources ≤ -2·|collections|`). -/
theorem c6_quota (max_sources : ℤ) (numCollections : ℕ)
    (hk : 0 < numCollections) (hms : 0 ≤ max_sources) :
    nResults max_sources numCollections
        = Int.fdiv max_sources numCollections + 2
      ∧ 0 ≤ nResults max_sources numCollections := by
  refine ⟨rfl, ?_⟩
  have hk0 : (0 : ℤ) ≤ numCollections := by exact_mod_cast Nat.zero_le _
  have := Int.fdiv_nonneg hms hk0
  unfold nResults
  omega

/-- C6 witness: the quota theorem at `maxSources = 10` over 5 collections. -/
theorem c6_witness :
    nResults 10 5 = Int.fdiv 10 5 + 2 ∧ 0 ≤ nResults 10 5 :=
  c6_quota 10 5 (by decide) (by decide)

/-! ### C1: the exact confidence formula -/

/-- The confidence formula as the spec states it (for comparison with the
code): `0.3 * min(|passages| / 10, 1) + 0.5 * avgRelevance
+ 0.2 * min(len(answer)/500, 1)` — the passage-count term clamped at 1 and no
outer clamp. -/
def specConfidence (docs : List Passage) (answer : String) : ℚ :=
  3 / 10 * min ((docs.length : ℚ) / 10) 1
    + 1 / 2 * ((docs.map (fun d => d.relevance_score)).sum / (docs.length : ℚ))
    + 1 / 5 * min ((answer.length : ℚ) / 500) 1

/-- C1 counterexample: on twenty passages of relevance 0 and an empty answer
the code returns `min((20/10)*0.3, 1) = 0.6`, while the spec formula gives
`0.3 * min(20/10, 1) = 0.3` — the code does not clamp the passage-count term
at 1 (it clamps only the final sum). -/
theorem c1_counterexample :
    calculate_confidence (List.replicate 20 ({} : Passage)) ""
      ≠ specConfidence (List.replicate 20 ({} : Passage)) "" := by
  have h1 : calculate_confidence (List.replicate 20 ({} : Passage)) ""
      = 3 / 5 := by
    simp only [calculate_confidence]
    norm_num [List.map_replicate, List.sum_replicate, min_def]
  have h2 : specConfidence (List.replicate 20 ({} : Passage)) ""
      = 3 / 10 := by
    simp only [specConfidence]
    norm_num [List.map_replicate, List.sum_replicate, min_def]
  rw [h1, h2]
  norm_num

/-- C1 (amended): for every non-empty passage list and every answer, the
Confidence Scorer returns exactly
`min(0.3 * (|passages| / 10) + 0.5 * avgRelevance
+ 0.2 * min(len(answer)/500, 1), 1)`: the passage-count term is *not*
clamped at 1; instead the final sum is clamped at 1. -/
theorem c1_formula (docs : List Passage) (answer : String) (h : docs ≠ []) :
    calculate_confidence docs answer
      = min (3 / 10 * ((docs.length : ℚ) / 10)
          + 1 / 2 * ((docs.map (fun d => d.relevance_score)).sum
              / (docs.length : ℚ))
          + 1 / 5 * min ((answer.length : ℚ) / 500) 1) 1 := by
  unfold calculate_confidence
  rw [if_neg h]
  ring_nf

/-- C1 witness: the amended formula on one passage of relevance 1 and an
empty answer. -/
theorem c1_witness :
    calculate_confidence [{ relevance_score := 1 }] ""
      = min (3 / 10 * ((([({ relevance_score := 1 } : Passage)] :
            List Passage).length : ℚ) / 10)
          + 1 / 2 * ((([({ relevance_score := 1 } : Passage)] :
              List Passage).map (fun d => d.relevance_score)).sum
              / (([({ relevance_score := 1 } : Passage)] :
                List Passage).length : ℚ))
          + 1 / 5 * min ((("" : String).length : ℚ) / 500) 1) 1 :=
  c1_formula [{ relevance_score := 1 }] "" (by decide)

/-! ### C5: confidence bounds -/

/-- C5 counterexample: on a single passage with relevance score −10 (the
store computes `relevance_score = 1 - distance`, which is negative for
distances above 1) the scorer returns `min(0.03 - 5, 1) = -4.97 < 0`, so
"the result lies in [0.0, 1.0] for every passage list" fails as stated. -/
theorem c5_counterexample :
    calculate_confidence [{ relevance_score := -10 }] "" < 0 := by
  simp only [calculate_confidence]
  norm_num [min_def]

/-- C5 (amended): for every passage list whose relevance scores are all
non-negative and every answer, the Confidence Scorer result lies in
[0.0, 1.0]; on the empty passage list it is exactly 0.0 for every answer.
(The upper bound holds for all inputs; the lower bound needs the scores to be
non-negative.) -/
theorem c5_bounds (docs : List Passage) (answer : String)
    (h : ∀ p ∈ docs, 0 ≤ p.relevance_score) :
    0 ≤ calculate_confidence docs answer
      ∧ calculate_confidence docs answer ≤ 1
      ∧ calculate_confidence [] answer = 0 := by
  refine ⟨?_, ?_, by simp [calculate_confidence]⟩
  · unfold calculate_confidence
    by_cases hd : docs = []
    · rw [if_pos hd]
    · rw [if_neg hd]
      have hn : 0 < docs.length := List.length_pos.2 hd
      have hnq : (0 : ℚ) < (docs.length : ℚ) := by exact_mod_cast hn
      have hsum : 0 ≤ (docs.map (fun d => d.relevance_score)).sum := by
        apply List.sum_nonneg
        intro x hx
        rcases List.mem_map.1 hx with ⟨p, hp, rfl⟩
        exact h p hp
      refine le_min ?_ zero_le_one
      have t1 : (0 : ℚ) ≤ (docs.length : ℚ) / 10 * (3 / 10) :=
        mul_nonneg (div_nonneg hnq.le (by norm_num)) (by norm_num)
      have t2 : (0 : ℚ) ≤ (docs.map (fun d => d.relevance_score)).sum
          / (docs.length : ℚ) * (1 / 2) :=
        mul_nonneg (div_nonneg hsum hnq.le) (by norm_num)
      have t3 : (0 : ℚ) ≤ min ((answer.length : ℚ) / 500) 1 * (1 / 5) :=
        mul_nonneg
          (le_min (div_nonneg (by positivity) (by norm_num)) zero_le_one)
          (by norm_num)
      exact add_nonneg (add_nonneg t1 t2) t3
  · unfold calculate_confidence
    by_cases hd : docs = []
    · rw [if_pos hd]
      norm_num
    · rw [if_neg hd]
      exact min_le_right _ _

/-- C5 witness: the bounds theorem on one passage of relevance 1 and an
empty answer. -/
theorem c5_witness :
    0 ≤ calculate_confidence [{ relevance_score := 1 }] "X"
      ∧ calculate_confidence [{ relevance_score := 1 }] "X" ≤ 1
      ∧ calculate_confidence [] "X" = 0 :=
  c5_bounds [{ relevance_score := 1 }] "X" (by decide)

/-! ### C2: context budget -/

theorem length_pyTakeStr (n : ℕ) (s : String) :
    (pyTakeStr n s).length = min n s.length := by
  unfold pyTakeStr String.length
  exact List.length_take _ _

theorem length_pyJoin (sep : String) (l : List String) :
    (pyJoin sep l).length
      = (l.map String.length).sum + sep.length * (l.length - 1) := by
  induction l with
  | nil => simp [pyJoin]
  | cons s rest ih =>
    cases rest with
    | nil => simp [pyJoin]
    | cons t ts =>
      rw [show pyJoin sep (s :: t :: ts) = s ++ sep ++ pyJoin sep (t :: ts)
        from rfl]
      simp only [String.length_append, ih, List.map_cons, List.sum_cons,
        List.length_cons, Nat.add_sub_cancel]
      ring

/-- Budget invariant of the accumulation loop: the blocks collected from a
running length `current ≤ B` total at most `B - current` characters, plus 3
for a possible ellipsis (the loop does not count the join delimiters). -/
theorem contextParts_sum_le (max_length : ℕ) (docs : List Passage) :
    ∀ current : ℕ, current ≤ max_length →
      ((contextParts max_length current docs).map String.length).sum + current
        ≤ max_length + 3 := by
  induction docs with
  | nil =>
    intro current h
    simp only [contextParts, List.map_nil, List.sum_nil]
    omega
  | cons doc rest ih =>
    intro current h
    simp only [contextParts]
    split
    case isTrue hover =>
      split
      case isTrue hrem =>
        simp only [List.map_cons, List.map_nil, List.sum_cons, List.sum_nil,
          String.length_append, length_pyTakeStr]
        have h3 : ("..." : String).length = 3 := rfl
        rw [h3]
        omega
      case isFalse hrem =>
        simp only [List.map_nil, List.sum_nil]
        omega
    case isFalse hfit =>
      have hfit2 : current + (docText doc).length ≤ max_length := by omega
      have := ih (current + (docText doc).length) hfit2
      simp only [List.map_cons, List.sum_cons]
      omega

set_option maxRecDepth 10000 in
/-- C2 counterexample: on eleven passages with empty content and metadata and
a budget of 200, the packed context has length 237, exceeding the budget plus
one delimiter length (205): the loop bounds only the total block content, not
the `"\n---\n"` delimiters added by the final join. -/
theorem c2_counterexample :
    ¬ ((prepare_context (List.replicate 11 ({} : Passage)) 200).length
        ≤ 200 + ("\n---\n" : String).length) := by
  decide

/-- C2 (amended): for every passage list and character budget `B`, the length
of the packed context is at most `B + 3` (content, with a possible ellipsis)
plus one delimiter length (5) for each assembled block beyond the first; the
claimed bound `B` plus a single delimiter length does not hold in general. -/
theorem c2_budget (docs : List Passage) (max_length : ℕ) :
    (prepare_context docs max_length).length
      ≤ max_length + 3
        + 5 * ((contextParts max_length 0 docs).length - 1) := by
  unfold prepare_context
  rw [length_pyJoin]
  have hsum := contextParts_sum_le max_length docs 0 (Nat.zero_le _)
  have h5 : ("\n---\n" : String).length = 5 := rfl
  rw [h5]
  omega

/-! ### C3: no-exception boundary -/

/-- C3: for every behaviour of the pipeline steps (collection retrieval
raising, answer generation raising, confidence computation raising — e.g. on
malformed passage data), the top-level query boundary returns a
QueryResponse (it is a total function), and whenever any executed step
fails, the response has empty sources and confidence 0.0. -/
theorem c3_no_exception (retrieveStep : Except String (List Passage))
    (generateStep : List Passage → Except String String)
    (confidenceStep : List Passage → String → Except String ℚ)
    (include_sources : Bool)
    (h : (∃ e, retrieveStep = .error e)
      ∨ (∃ docs e, retrieveStep = .ok docs ∧ generateStep docs = .error e)
      ∨ (∃ docs a e, retrieveStep = .ok docs ∧ generateStep docs = .ok a
          ∧ confidenceStep docs a = .error e)) :
    (queryBoundary retrieveStep generateStep confidenceStep
        include_sources).sources = []
      ∧ (queryBoundary retrieveStep generateStep confidenceStep
        include_sources).confidence = 0 := by
  rcases h with ⟨e, he⟩ | ⟨docs, e, hok, he⟩ | ⟨docs, a, e, hok, ha, he⟩
  · subst he
    exact ⟨rfl, rfl⟩
  · subst hok
    by_cases hd : docs = []
    · simp [queryBoundary, hd, noInfoResponse]
    · simp [queryBoundary, hd, he, errorResponse]
  · subst hok
    by_cases hd : docs = []
    · simp [queryBoundary, hd, noInfoResponse]
    · simp [queryBoundary, hd, ha, he, errorResponse]

/-- C3 witness: the boundary theorem when retrieval raises `"boom"`. -/
theorem c3_witness :
    (queryBoundary (.error "boom") (fun _ => .ok "")
        (fun _ _ => .ok 0) true).sources = []
      ∧ (queryBoundary (.error "boom") (fun _ => .ok "")
        (fun _ _ => .ok 0) true).confidence = 0 :=
  c3_no_exception (.error "boom") (fun _ => .ok "") (fun _ _ => .ok 0) true
    (Or.inl ⟨"boom", rfl⟩)

/-! ### C9: includeSources only empties the source list -/

/-- C9: for every configuration, collaborator behaviour, question,
maxSources and collection set, calling `query` with `include_sources = false`
yields an empty source list, while the answer and the confidence coincide
with those of the `include_sources = true` call. -/
theorem c9_include_sources (cfg : Config) (fetch : Fetch)
    (backend : Option (String → String → Except String String))
    (question : String) (max_sources : ℤ)
    (collections : Option (List String)) :
    (query cfg fetch backend question false max_sources
        collections).sources = []
      ∧ (query cfg fetch backend question false max_sources
            collections).answer
        = (query cfg fetch backend question true max_sources
            collections).answer
      ∧ (query cfg fetch backend question false max_sources
            collections).confidence
        = (query cfg fetch backend question true max_sources
            collections).confidence := by
  unfold query queryBoundary
  by_cases hd :
      retrieve_documents cfg fetch question max_sources collections = [] <;>
    simp [hd, noInfoResponse]

/-! ### C10: explicitly empty collection list -/

/-- C10: for every configuration, collaborator behaviour, question and
maxSources, retrieval over an explicitly empty (non-`None`) collection list
returns the empty retrieval set without error — the loop body containing the
quota expression `max_sources // len(collections) + 2` is never executed, so
no division by zero occurs — and `query` then returns the canned
no-information response, whose sources are empty and whose confidence
is 0.0. -/
theorem c10_empty_collections (cfg : Config) (fetch : Fetch)
    (backend : Option (String → String → Except String String))
    (question : String) (include_sources : Bool) (max_sources : ℤ) :
    retrieve_documents cfg fetch question max_sources (some []) = []
      ∧ query cfg fetch backend question include_sources max_sources
          (some []) = noInfoResponse
      ∧ noInfoResponse.sources = [] ∧ noInfoResponse.confidence = 0 := by
  have hretr :
      retrieve_documents cfg fetch question max_sources (some []) = [] := by
    unfold retrieve_documents mergedSorted allResults
    simp [sortByKey, pyTake_nil]
  refine ⟨hretr, ?_, rfl, rfl⟩
  unfold query queryBoundary
  simp [hretr]

/-! ### C8: timeline ordering, year ranges and yearRange fields -/

theorem mem_addUnique {α : Type} [DecidableEq α] (acc : List α) (x a : α) :
    a ∈ addUnique acc x → a ∈ acc ∨ a = x := by
  unfold addUnique
  split
  · exact fun h => Or.inl h
  · intro h
    rcases List.mem_append.1 h with h | h
    · exact Or.inl h
    · simp at h
      exact Or.inr h

theorem mem_dedupFirst {α : Type} [DecidableEq α] (l : List α) (a : α) :
    a ∈ dedupFirst l → a ∈ l := by
  have key : ∀ (l : List α) (acc : List α),
      a ∈ l.foldl addUnique acc → a ∈ acc ∨ a ∈ l := by
    intro l
    induction l with
    | nil => intro acc h; exact Or.inl h
    | cons b bs ih =>
      intro acc h
      rcases ih (addUnique acc b) h with h | h
      · rcases mem_addUnique acc b a h with h | h
        · exact Or.inl h
        · exact Or.inr (by simp [h])
      · exact Or.inr (List.mem_cons_of_mem _ h)
  intro h
  rcases key l [] h with h | h
  · simp at h
  · exact h

/-- Every year emitted by the scan of the regex
`\b(19[5-9]\d|20[0-2]\d)\b` lies in 1950–1999 or 2000–2029. -/
theorem findYears_range :
    ∀ (prev : Option Char) (l : List Char) (y : ℕ), y ∈ findYears prev l →
      (1950 ≤ y ∧ y ≤ 1999) ∨ (2000 ≤ y ∧ y ≤ 2029) := by
  intro prev l
  induction prev, l using findYears.induct with
  | case1 prev c1 c2 c3 c4 rest hcond ih =>
    intro y hy
    rw [findYears] at hy
    rw [if_pos hcond] at hy
    rcases List.mem_cons.1 hy with rfl | hy
    · simp only [Bool.and_eq_true] at hcond
      have htok := hcond.1.2
      simp only [yearTok, isDigitChar, Bool.or_eq_true, Bool.and_eq_true,
        decide_eq_true_eq] at htok
      unfold yearVal
      omega
    · exact ih y hy
  | case2 prev c1 c2 c3 c4 rest hcond ih =>
    intro y hy
    rw [findYears] at hy
    rw [if_neg hcond] at hy
    exact ih y hy
  | case3 l0 p0 h =>
    intro y hy
    rcases l0 with _ | ⟨a, _ | ⟨b, _ | ⟨c, _ | ⟨d, t⟩⟩⟩⟩
    · simp [findYears] at hy
    · simp [findYears] at hy
    · simp [findYears] at hy
    · simp [findYears] at hy
    · exact absurd rfl (h a b c d t)

/-- C8: for every configuration, fetch behaviour and topic, the returned
timeline is sorted ascending by year, every year lies in 1950–1999 or
2000–2029, and the `year_range` start/end fields are the first/last year of
the sorted timeline (`none` when the timeline is empty, since `head?` and
`getLast?` are then `none`). -/
theorem c8_timeline (cfg : Config) (fetch : Fetch) (topic : String) :
    (get_historical_timeline cfg fetch topic).timeline.Pairwise
        (fun a b => a.year ≤ b.year)
      ∧ (∀ e ∈ (get_historical_timeline cfg fetch topic).timeline,
          (1950 ≤ e.year ∧ e.year ≤ 1999) ∨ (2000 ≤ e.year ∧ e.year ≤ 2029))
      ∧ (get_historical_timeline cfg fetch topic).year_range_start
          = (get_historical_timeline cfg fetch topic).timeline.head?.map
            (fun e => e.year)
      ∧ (get_historical_timeline cfg fetch topic).year_range_end
          = (get_historical_timeline cfg fetch topic).timeline.getLast?.map
            (fun e => e.year) := by
  unfold get_historical_timeline
  refine ⟨?_, ?_, rfl, rfl⟩
  · exact pairwise_sortByKey (fun e : TimelineEvent => e.year) _
  · intro e he
    have he2 := (mem_sortByKey (fun e : TimelineEvent => e.year) e _).1 he
    rcases List.mem_flatten.1 he2 with ⟨le, hle, hel⟩
    rcases List.mem_map.1 hle with ⟨doc, hdoc, rfl⟩
    rcases List.mem_map.1 hel with ⟨y, hy, rfl⟩
    exact findYears_range none doc.content.data y (mem_dedupFirst _ y hy)

/-- A concrete store behaviour for the timeline witness: every collection
returns one passage mentioning the years 1984 and 2021. -/
def timelineWitnessFetch : Fetch :=
  fun _ _ _ => .ok [{ content := "In 1984 and 2021", relevance_score := 1 }]

/-- C8 witness: the timeline theorem for a store whose passages mention 1984
and 2021. -/
theorem c8_witness :
    (get_historical_timeline {} timelineWitnessFetch
        "lithography").timeline.Pairwise (fun a b => a.year ≤ b.year)
      ∧ (∀ e ∈ (get_historical_timeline {} timelineWitnessFetch
          "lithography").timeline,
          (1950 ≤ e.year ∧ e.year ≤ 1999) ∨ (2000 ≤ e.year ∧ e.year ≤ 2029))
      ∧ (get_historical_timeline {} timelineWitnessFetch
            "lithography").year_range_start
        = (get_historical_timeline {} timelineWitnessFetch
            "lithography").timeline.head?.map (fun e => e.year)
      ∧ (get_historical_timeline {} timelineWitnessFetch
            "lithography").year_range_end
        = (get_historical_timeline {} timelineWitnessFetch
            "lithography").timeline.getLast?.map (fun e => e.year) :=
  c8_timeline {} timelineWitnessFetch "lithography"

end RagEngine
